import Mathlib

/-!
# movie-engine-backend — verification of the query-understanding and rating pipeline

Shallow embedding of the relevant parts of the `movie-engine-backend` repository:

* `QueryParserService.parseQuery` and `normalizeQuery`
  (`src/search/services/query-parser.service.ts`): the JS regexes are modelled by
  explicit leftmost-match scanners over character lists; `\s+` / `\s*` are modelled
  by whitespace skipping, alternations by ordered lists of word sequences, and the
  word-boundary typo fixes of `normalizeQuery` by whitespace-token rewriting.
* the aggregate recalculation consumer (`src/ratings/rating-stream.consumer.ts`)
  with the record store, cache and search index as explicit state; exceptions are
  modelled by `Option`.
* `RatingService.createRating` / `updateMovieAggregates`
  (`src/ratings/service/rating.service.ts`), `RatingService.createAnonymousRating`
  and `MoviesController.rateMovie`.
* the query compilers (`OpenSearchEngineService.buildOpenSearchQuery`,
  `buildTopRatedQuery`, the sort spec of `SearchService.searchMovies`) and the
  HTTP search handlers.

JS numbers are modelled by `ℚ`/`ℤ`; `Number(x.toFixed(2))` on a non-negative
value is `round (100 * x) / 100`.
-/

/-- JS `\s` on the inputs of interest (space, tab, newline, carriage return). -/
def isWs (c : Char) : Bool := c = ' ' ∨ c = '\t' ∨ c = '\n' ∨ c = '\r'

/-- JS `String.prototype.trim`. -/
def trimWs (s : List Char) : List Char :=
  ((s.dropWhile isWs).reverse.dropWhile isWs).reverse

/-- Whitespace tokenizer (used to model the `\b…\b` rewrites of `normalizeQuery`
and the final `replace(/\s+/g, ' ')`). -/
def splitWsAux : List Char → List Char → List (List Char)
  | [], acc => if acc.isEmpty then [] else [acc.reverse]
  | c :: cs, acc =>
      if isWs c then
        if acc.isEmpty then splitWsAux cs [] else acc.reverse :: splitWsAux cs []
      else
        splitWsAux cs (c :: acc)

def splitWs (s : List Char) : List (List Char) := splitWsAux s []

/-- `.replace(/\bthen\b/g,'than') … .replace(/\btha\b(?!\w)/g,'than')` at token level. -/
def fixThanTok (t : List Char) : List Char :=
  if t = "then".toList ∨ t = "thand".toList ∨ t = "thna".toList ∨ t = "tha".toList then
    "than".toList
  else t

def isStarTok (t : List Char) : Bool := t = "star".toList ∨ t = "stars".toList

/-- `.replace(/\bs\s+stars?\b/g, 'stars')` at token level. -/
def collapseSStar : List (List Char) → List (List Char)
  | t1 :: t2 :: rest =>
      if t1 = ['s'] ∧ isStarTok t2 then "stars".toList :: collapseSStar rest
      else t1 :: collapseSStar (t2 :: rest)
  | l => l

/-- `.replace(/\bstars?\s+s\b/g, 'stars')` at token level. -/
def collapseStarS : List (List Char) → List (List Char)
  | t1 :: t2 :: rest =>
      if isStarTok t1 ∧ t2 = ['s'] then "stars".toList :: collapseStarS rest
      else t1 :: collapseStarS (t2 :: rest)
  | l => l

/-- `.replace(/\bstar\b/g,'stars').replace(/\bstrs?\b/g,'stars')` at token level. -/
def fixStarTok (t : List Char) : List Char :=
  if t = "star".toList ∨ t = "str".toList ∨ t = "strs".toList then "stars".toList
  else t

/-- `QueryParserService.normalizeQuery`: lowercase, fix "than" typos and
"star(s)" variations, collapse whitespace, trim. -/
def normalizeQuery (q : String) : String :=
  let toks := splitWs (q.toList.map Char.toLower)
  let toks := toks.map fixThanTok
  let toks := collapseSStar toks
  let toks := collapseStarS toks
  let toks := toks.map fixStarTok
  String.mk (List.intercalate [' '] toks)

/-- Consume a literal character sequence. -/
def dropLit : List Char → List Char → Option (List Char)
  | [], s => some s
  | _ :: _, [] => none
  | c :: cs, d :: ds => if d = c then dropLit cs ds else none

/-- `\s+`: at least one whitespace character, consumed greedily. -/
def skipWs1 : List Char → Option (List Char)
  | c :: cs => if isWs c then some (cs.dropWhile isWs) else none
  | [] => none

/-- `\s*`. -/
def skipWs (s : List Char) : List Char := s.dropWhile isWs

def digitsToNat (ds : List Char) : ℕ :=
  ds.foldl (fun n c => 10 * n + (c.toNat - 48)) 0

/-- `\d+` (greedy), as a natural number. -/
def parseNatTok (s : List Char) : Option (ℕ × List Char) :=
  let ds := s.takeWhile Char.isDigit
  if ds.isEmpty then none else some (digitsToNat ds, s.dropWhile Char.isDigit)

/-- `\d{4}`: exactly four digit characters. -/
def take4Digits : List Char → Option (ℕ × List Char)
  | a :: b :: c :: d :: rest =>
      if a.isDigit ∧ b.isDigit ∧ c.isDigit ∧ d.isDigit then
        some (digitsToNat [a, b, c, d], rest)
      else none
  | _ => none

/-- `(\d+(?:\.\d+)?)` followed by `parseFloat`, as a rational. A dot with no
digit after it is not part of the match. -/
def parseDec (s : List Char) : Option (ℚ × List Char) :=
  match parseNatTok s with
  | none => none
  | some (n, r) =>
      match r with
      | '.' :: r2 =>
          match parseNatTok r2 with
          | some (f, r3) => some ((n : ℚ) + (f : ℚ) / ((10 : ℚ) ^ (r2.takeWhile Char.isDigit).length), r3)
          | none => some ((n : ℚ), r)
      | _ => some ((n : ℚ), r)

/-- A word followed by an optional greedy `s?` (`stars?`, `years?`). -/
def matchOptPlural (w : List Char) (s : List Char) : Option (List Char) := do
  let s1 ← dropLit w s
  match s1 with
  | 's' :: r => pure r
  | _ => pure s1

/-- An alternation member `w1\s+w2\s+…` (e.g. `less\s+than`). -/
def matchWords : List String → List Char → Option (List Char)
  | [], s => some s
  | [w], s => dropLit w.toList s
  | w :: ws, s => do
      let s1 ← dropLit w.toList s
      let s2 ← skipWs1 s1
      matchWords ws s2

/-- `(?:alt1|alt2|…)\s+(\d+(?:\.\d+)?)\s*stars?` anchored at the current position;
alternatives are tried in the order of the source regex. -/
def matchRatingAt (alts : List (List String)) (s : List Char) : Option (ℚ × List Char) :=
  alts.findSome? fun alt => do
    let s1 ← matchWords alt s
    let s2 ← skipWs1 s1
    let (q, s3) ← parseDec s2
    let s4 ← matchOptPlural "star".toList (skipWs s3)
    pure (q, s4)

/-- `(?:exactly\s+)?(\d+(?:\.\d+)?)\s*stars?` anchored at the current position:
the optional `exactly` prefix is tried greedily first, as the regex engine does. -/
def matchExactAt (s : List Char) : Option (ℚ × List Char) :=
  let core : List Char → Option (ℚ × List Char) := fun t => do
    let (q, t2) ← parseDec t
    let t3 ← matchOptPlural "star".toList (skipWs t2)
    pure (q, t3)
  match (do
      let s1 ← dropLit "exactly".toList s
      let s2 ← skipWs1 s1
      core s2) with
  | some r => some r
  | none => core s

/-- `(?:after|since|from|…)\s+(\d{4})` anchored at the current position. -/
def matchYearAt (alts : List (List String)) (s : List Char) : Option (ℕ × List Char) :=
  alts.findSome? fun alt => do
    let s1 ← matchWords alt s
    let s2 ← skipWs1 s1
    take4Digits s2

/-- `(?:older\s+than|…)\s+(\d+)\s*years?` anchored at the current position. -/
def matchAgeAt (alts : List (List String)) (s : List Char) : Option (ℕ × List Char) :=
  alts.findSome? fun alt => do
    let s1 ← matchWords alt s
    let s2 ← skipWs1 s1
    let (n, s3) ← parseNatTok s2
    let s4 ← matchOptPlural "year".toList (skipWs s3)
    pure (n, s4)

/-- Leftmost match of an anchored matcher, JS `String.prototype.match` style.
Returns the value, the text before the match and the text after the match. -/
def scanFirstSplit {α : Type} (f : List Char → Option (α × List Char)) :
    List Char → Option (α × List Char × List Char)
  | [] => none
  | c :: rest =>
      match f (c :: rest) with
      | some (a, rem) => some (a, [], rem)
      | none =>
          match scanFirstSplit f rest with
          | some (a, pre, rem) => some (a, c :: pre, rem)
          | none => none

/-- The value of the leftmost match of a rating pattern in a string. -/
def ratingMatch (alts : List (List String)) (nq : List Char) : Option ℚ :=
  (scanFirstSplit (matchRatingAt alts) nq).map (fun x => x.1)

def exactMatch (nq : List Char) : Option ℚ :=
  (scanFirstSplit matchExactAt nq).map (fun x => x.1)

def yearMatch (alts : List (List String)) (nq : List Char) : Option ℕ :=
  (scanFirstSplit (matchYearAt alts) nq).map (fun x => x.1)

def ageMatch (alts : List (List String)) (nq : List Char) : Option ℕ :=
  (scanFirstSplit (matchAgeAt alts) nq).map (fun x => x.1)

/-- `cleanedQuery.replace(pattern, '')` for a case-insensitive pattern: the match
is found on the lowercased text and the corresponding span of the original text
is removed; if the pattern does not match, the text is unchanged. -/
def stripMatch {α : Type} (f : List Char → Option (α × List Char)) (cq : List Char) :
    List Char :=
  match scanFirstSplit f (cq.map Char.toLower) with
  | none => cq
  | some (_, pre, rem) => cq.take pre.length ++ cq.drop (cq.length - rem.length)

def lessAlts : List (List String) :=
  [["less", "than"], ["under"], ["below"], ["maximum"], ["max"]]

def moreAlts : List (List String) :=
  [["more", "than"], ["above"], ["over"]]

def atLeastAlts : List (List String) :=
  [["at", "least"], ["minimum"], ["min"]]

def atMostAlts : List (List String) :=
  [["at", "most"], ["maximum", "of"], ["max", "of"]]

def afterAlts : List (List String) := [["after"], ["since"], ["from"]]

def beforeAlts : List (List String) := [["before"]]

def olderAlts : List (List String) := [["older", "than"]]

def newerAlts : List (List String) :=
  [["newer", "than"], ["within", "the", "last"], ["within", "last"], ["in", "the", "past"]]

/-- `SearchCriteria` (src/interfaces/search.interface.ts), as produced by the parser. -/
structure SearchCriteria where
  textQuery : Option String := none
  minRating : Option ℚ := none
  maxRating : Option ℚ := none
  afterYear : Option ℕ := none
  beforeYear : Option ℕ := none
  olderThanYears : Option ℕ := none
  newerThanYears : Option ℕ := none
  castNames : List String := []
  deriving DecidableEq, Repr

/-- Parser state: the criteria accumulated so far and the progressively stripped
`cleanedQuery` (the original, non-normalized text). -/
abbrev ParseState := SearchCriteria × List Char

def stepAfterYear (nq : List Char) (s : ParseState) : ParseState :=
  match yearMatch afterAlts nq with
  | some y => ({ s.1 with afterYear := some y }, trimWs (stripMatch (matchYearAt afterAlts) s.2))
  | none => s

def stepBeforeYear (nq : List Char) (s : ParseState) : ParseState :=
  match yearMatch beforeAlts nq with
  | some y => ({ s.1 with beforeYear := some y }, trimWs (stripMatch (matchYearAt beforeAlts) s.2))
  | none => s

def stepOlder (nq : List Char) (s : ParseState) : ParseState :=
  match ageMatch olderAlts nq with
  | some n => ({ s.1 with olderThanYears := some n }, trimWs (stripMatch (matchAgeAt olderAlts) s.2))
  | none => s

def stepNewer (nq : List Char) (s : ParseState) : ParseState :=
  match ageMatch newerAlts nq with
  | some n => ({ s.1 with newerThanYears := some n }, trimWs (stripMatch (matchAgeAt newerAlts) s.2))
  | none => s

/-- STEP 4 of `parseQuery`: the rating-pattern priority chain. A category whose
regex matches stops the chain even when its number is outside `[1,5]` (the inner
range check has no `else` in the source); the span is stripped from the cleaned
query only when the rating was accepted. -/
def stepRating (nq : List Char) (s : ParseState) : ParseState :=
  match ratingMatch lessAlts nq with
  | some r =>
      if 1 ≤ r ∧ r ≤ 5 then
        ({ s.1 with maxRating := some (r - 1/100) },
          trimWs (stripMatch (matchRatingAt lessAlts) s.2))
      else s
  | none =>
  match ratingMatch moreAlts nq with
  | some r =>
      if 1 ≤ r ∧ r ≤ 5 then
        ({ s.1 with minRating := some (r + 1/100) },
          trimWs (stripMatch (matchRatingAt moreAlts) s.2))
      else s
  | none =>
  match ratingMatch atLeastAlts nq with
  | some r =>
      if 1 ≤ r ∧ r ≤ 5 then
        ({ s.1 with minRating := some r },
          trimWs (stripMatch (matchRatingAt atLeastAlts) s.2))
      else s
  | none =>
  match ratingMatch atMostAlts nq with
  | some r =>
      if 1 ≤ r ∧ r ≤ 5 then
        ({ s.1 with maxRating := some r },
          trimWs (stripMatch (matchRatingAt atMostAlts) s.2))
      else s
  | none =>
  match exactMatch nq with
  | some r =>
      if 1 ≤ r ∧ r ≤ 5 then
        ({ s.1 with minRating := some r, maxRating := some r },
          trimWs (stripMatch matchExactAt s.2))
      else s
  | none => s

/-- STEP 5 of `parseQuery`: collapse whitespace, trim, keep as `textQuery` when at
least two characters remain. -/
def finalizeParse (s : ParseState) : SearchCriteria :=
  let t := trimWs (List.intercalate [' '] (splitWs s.2))
  if 2 ≤ t.length then { s.1 with textQuery := some (String.mk t) } else s.1

/-- STEPS 2–4 of `parseQuery` in source order: after/since/from year, before year,
older-than, newer-than, then the rating chain. All patterns are matched against
the fixed normalized query `nq`. -/
def parsePipeline (nq : List Char) (s : ParseState) : ParseState :=
  stepRating nq (stepNewer nq (stepOlder nq (stepBeforeYear nq (stepAfterYear nq s))))

/-- `QueryParserService.parseQuery`: criteria start empty, the cleaned query
starts as the raw input. -/
def parseQuery (query : String) : SearchCriteria :=
  finalizeParse (parsePipeline (normalizeQuery query).toList ({}, query.toList))

lemma stepAfterYear_minRating (nq : List Char) (s : ParseState) :
    (stepAfterYear nq s).1.minRating = s.1.minRating := by
  unfold stepAfterYear; cases yearMatch afterAlts nq <;> rfl

lemma stepAfterYear_maxRating (nq : List Char) (s : ParseState) :
    (stepAfterYear nq s).1.maxRating = s.1.maxRating := by
  unfold stepAfterYear; cases yearMatch afterAlts nq <;> rfl

lemma stepBeforeYear_minRating (nq : List Char) (s : ParseState) :
    (stepBeforeYear nq s).1.minRating = s.1.minRating := by
  unfold stepBeforeYear; cases yearMatch beforeAlts nq <;> rfl

lemma stepBeforeYear_maxRating (nq : List Char) (s : ParseState) :
    (stepBeforeYear nq s).1.maxRating = s.1.maxRating := by
  unfold stepBeforeYear; cases yearMatch beforeAlts nq <;> rfl

lemma stepOlder_minRating (nq : List Char) (s : ParseState) :
    (stepOlder nq s).1.minRating = s.1.minRating := by
  unfold stepOlder; cases ageMatch olderAlts nq <;> rfl

lemma stepOlder_maxRating (nq : List Char) (s : ParseState) :
    (stepOlder nq s).1.maxRating = s.1.maxRating := by
  unfold stepOlder; cases ageMatch olderAlts nq <;> rfl

lemma stepNewer_minRating (nq : List Char) (s : ParseState) :
    (stepNewer nq s).1.minRating = s.1.minRating := by
  unfold stepNewer; cases ageMatch newerAlts nq <;> rfl

lemma stepNewer_maxRating (nq : List Char) (s : ParseState) :
    (stepNewer nq s).1.maxRating = s.1.maxRating := by
  unfold stepNewer; cases ageMatch newerAlts nq <;> rfl

lemma finalizeParse_minRating (s : ParseState) :
    (finalizeParse s).minRating = s.1.minRating := by
  unfold finalizeParse
  by_cases h : 2 ≤ (trimWs (List.intercalate [' '] (splitWs s.2))).length <;>
    simp [h]

lemma finalizeParse_maxRating (s : ParseState) :
    (finalizeParse s).maxRating = s.1.maxRating := by
  unfold finalizeParse
  by_cases h : 2 ≤ (trimWs (List.intercalate [' '] (splitWs s.2))).length <;>
    simp [h]

/-- The year steps never touch the rating fields. -/
lemma yearSteps_minRating (nq : List Char) (s : ParseState) :
    (stepNewer nq (stepOlder nq (stepBeforeYear nq (stepAfterYear nq s)))).1.minRating
      = s.1.minRating := by
  rw [stepNewer_minRating, stepOlder_minRating, stepBeforeYear_minRating,
    stepAfterYear_minRating]

lemma yearSteps_maxRating (nq : List Char) (s : ParseState) :
    (stepNewer nq (stepOlder nq (stepBeforeYear nq (stepAfterYear nq s)))).1.maxRating
      = s.1.maxRating := by
  rw [stepNewer_maxRating, stepOlder_maxRating, stepBeforeYear_maxRating,
    stepAfterYear_maxRating]

/-- If the `less than|under|below|maximum|max` pattern matches with an in-range
bound, the chain stops there: `maxRating` is set to `r - 0.01` and `minRating`
is left untouched, whatever the rest of the input holds. -/
lemma less_chain (q : String) (r : ℚ)
    (h : ratingMatch lessAlts ((normalizeQuery q).toList) = some r)
    (h1 : 1 ≤ r) (h5 : r ≤ 5) :
    (parseQuery q).maxRating = some (r - 1/100) ∧ (parseQuery q).minRating = none := by
  unfold parseQuery parsePipeline
  rw [finalizeParse_maxRating, finalizeParse_minRating]
  unfold stepRating
  simp only [h]
  rw [if_pos ⟨h1, h5⟩]
  refine ⟨rfl, ?_⟩
  show (stepNewer _ (stepOlder _ (stepBeforeYear _ (stepAfterYear _ _)))).1.minRating = none
  rw [yearSteps_minRating]

/-- **C1.** For every input string the parser evaluates rating phrases as a strict
priority chain (a match of the `less than` category consumes the phrase and stops
the chain, leaving `minRating` unset), and for every bound `R` with `1 ≤ R ≤ 5`:
`more than R stars` yields `minRating = R + 0.01` with `maxRating` unset,
`less than R stars` yields `maxRating = R − 0.01` with `minRating` unset,
`at least R stars` yields `minRating = R` exactly with `maxRating` unset, and a
bare `R stars` yields `minRating = maxRating = R`. -/
theorem parseQuery_rating_priority_chain (R : ℕ) (h1 : 1 ≤ R) (h5 : R ≤ 5) :
    ((parseQuery ("more than " ++ toString R ++ " stars")).minRating = some ((R : ℚ) + 1/100) ∧
     (parseQuery ("more than " ++ toString R ++ " stars")).maxRating = none) ∧
    ((parseQuery ("less than " ++ toString R ++ " stars")).maxRating = some ((R : ℚ) - 1/100) ∧
     (parseQuery ("less than " ++ toString R ++ " stars")).minRating = none) ∧
    ((parseQuery ("at least " ++ toString R ++ " stars")).minRating = some (R : ℚ) ∧
     (parseQuery ("at least " ++ toString R ++ " stars")).maxRating = none) ∧
    ((parseQuery (toString R ++ " stars")).minRating = some (R : ℚ) ∧
     (parseQuery (toString R ++ " stars")).maxRating = some (R : ℚ)) ∧
    (∀ (q : String) (r : ℚ),
       ratingMatch lessAlts ((normalizeQuery q).toList) = some r → 1 ≤ r → r ≤ 5 →
       (parseQuery q).maxRating = some (r - 1/100) ∧ (parseQuery q).minRating = none) := by
  have chain := less_chain
  interval_cases R <;>
    exact ⟨⟨rfl, rfl⟩, ⟨rfl, rfl⟩, ⟨rfl, rfl⟩, ⟨rfl, rfl⟩, fun q r h ha hb => chain q r h ha hb⟩

/-- Witness for C1 at `R = 3`. -/
theorem parseQuery_rating_priority_chain_witness :
    (parseQuery "more than 3 stars").minRating = some ((3 : ℚ) + 1/100) ∧
    (parseQuery "less than 3 stars").maxRating = some ((3 : ℚ) - 1/100) ∧
    (parseQuery "at least 3 stars").minRating = some (3 : ℚ) ∧
    (parseQuery "3 stars").minRating = some (3 : ℚ) ∧
    (parseQuery "3 stars").maxRating = some (3 : ℚ) := by
  obtain ⟨h1, h2, h3, h4, _⟩ :=
    parseQuery_rating_priority_chain 3 (by norm_num) (by norm_num)
  exact ⟨h1.1, h2.1, h3.1, h4.1, h4.2⟩

/-- In one pass of the rating chain at most one category fires: starting from a
state with no rating bounds, both bounds can only come out set when the exact-band
branch fired, and then they are equal. -/
lemma stepRating_min_max (nq : List Char) (s : ParseState)
    (hmin : s.1.minRating = none) (hmax : s.1.maxRating = none) (a b : ℚ)
    (ha : (stepRating nq s).1.minRating = some a)
    (hb : (stepRating nq s).1.maxRating = some b) : a = b := by
  unfold stepRating at ha hb
  cases h1 : ratingMatch lessAlts nq with
  | some r =>
      simp only [h1] at ha hb
      by_cases hr : 1 ≤ r ∧ r ≤ 5
      · rw [if_pos hr] at ha; dsimp only at ha
        rw [hmin] at ha; exact absurd ha (by simp)
      · rw [if_neg hr] at ha; rw [hmin] at ha; exact absurd ha (by simp)
  | none =>
  simp only [h1] at ha hb
  cases h2 : ratingMatch moreAlts nq with
  | some r =>
      simp only [h2] at ha hb
      by_cases hr : 1 ≤ r ∧ r ≤ 5
      · rw [if_pos hr] at hb; dsimp only at hb
        rw [hmax] at hb; exact absurd hb (by simp)
      · rw [if_neg hr] at hb; rw [hmax] at hb; exact absurd hb (by simp)
  | none =>
  simp only [h2] at ha hb
  cases h3 : ratingMatch atLeastAlts nq with
  | some r =>
      simp only [h3] at ha hb
      by_cases hr : 1 ≤ r ∧ r ≤ 5
      · rw [if_pos hr] at hb; dsimp only at hb
        rw [hmax] at hb; exact absurd hb (by simp)
      · rw [if_neg hr] at hb; rw [hmax] at hb; exact absurd hb (by simp)
  | none =>
  simp only [h3] at ha hb
  cases h4 : ratingMatch atMostAlts nq with
  | some r =>
      simp only [h4] at ha hb
      by_cases hr : 1 ≤ r ∧ r ≤ 5
      · rw [if_pos hr] at ha; dsimp only at ha
        rw [hmin] at ha; exact absurd ha (by simp)
      · rw [if_neg hr] at ha; rw [hmin] at ha; exact absurd ha (by simp)
  | none =>
  simp only [h4] at ha hb
  cases h5 : exactMatch nq with
  | some r =>
      simp only [h5] at ha hb
      by_cases hr : 1 ≤ r ∧ r ≤ 5
      · rw [if_pos hr] at ha hb; dsimp only at ha hb
        rw [(Option.some.injEq _ _).mp ha.symm, (Option.some.injEq _ _).mp hb.symm]
      · rw [if_neg hr] at ha; rw [hmin] at ha; exact absurd ha (by simp)
  | none =>
      simp only [h5] at ha hb
      rw [hmin] at ha; exact absurd ha (by simp)

/-- **C10.** For every input string, the criteria returned by the query parser
have `minRating` and `maxRating` both set only when they are equal (the
exact-band case): one parse never combines a lower bound from one rating phrase
with an upper bound from another. -/
theorem parseQuery_minmax_only_exact_band (q : String) (a b : ℚ)
    (hmin : (parseQuery q).minRating = some a)
    (hmax : (parseQuery q).maxRating = some b) : a = b := by
  unfold parseQuery parsePipeline at hmin hmax
  rw [finalizeParse_minRating] at hmin
  rw [finalizeParse_maxRating] at hmax
  exact stepRating_min_max _ _ (by rw [yearSteps_minRating]) (by rw [yearSteps_maxRating])
    a b hmin hmax

/-- Witness for C10 at the exact-band phrase `exactly 4 stars`. -/
theorem parseQuery_minmax_only_exact_band_witness :
    (parseQuery "exactly 4 stars").minRating = some (4 : ℚ) ∧
    (parseQuery "exactly 4 stars").maxRating = some (4 : ℚ) ∧ (4 : ℚ) = 4 :=
  ⟨rfl, rfl, parseQuery_minmax_only_exact_band "exactly 4 stars" 4 4 rfl rfl⟩

/-! ## Record store, ratings and the aggregate recalculation consumer -/

inductive MovieType where
  | MOVIE
  | TV_SHOW
  deriving DecidableEq, Repr

/-- The aggregate fields of a `Movie` row (prisma model `Movie`). -/
structure MovieRec where
  id : ℕ
  avgRating : ℚ
  ratingsCount : ℕ
  deriving DecidableEq, Repr

/-- A `Rating` row (prisma model `Rating`). -/
structure RatingRec where
  id : ℕ
  movieId : ℕ
  stars : ℤ
  sourceId : Option String
  deriving DecidableEq, Repr

/-- The relational store as seen through the prisma calls used by the code. -/
structure DB where
  movies : List MovieRec
  ratings : List RatingRec
  deriving DecidableEq, Repr

def ratingsFor (db : DB) (m : ℕ) : List RatingRec :=
  db.ratings.filter (fun r => r.movieId = m)

/-- `Number(x.toFixed(2))` for the non-negative values arising here. -/
def round2 (x : ℚ) : ℚ := (round (x * 100) : ℤ) / 100

/-- `prisma.rating.aggregate({_avg:{stars}, …})._avg.stars ?? 0`: the exact mean
of all the movie's ratings, `0` when there are none (SQL AVG of no rows is null). -/
def aggAvg (db : DB) (m : ℕ) : ℚ :=
  let rs := ratingsFor db m
  if rs.length = 0 then 0 else ((rs.map fun r => (r.stars : ℚ)).sum) / (rs.length : ℚ)

/-- `prisma.rating.aggregate({_count:{id}})._count.id ?? 0`. -/
def aggCount (db : DB) (m : ℕ) : ℕ := (ratingsFor db m).length

def findMovie (db : DB) (m : ℕ) : Option MovieRec :=
  db.movies.find? (fun mv => mv.id = m)

/-- `prisma.movie.update({where:{id}, data:{avgRating, ratingsCount}})`; prisma
throws when no row matches the `where`, modelled by `none`. -/
def updateMovie (db : DB) (m : ℕ) (avg : ℚ) (cnt : ℕ) : Option DB :=
  if db.movies.any (fun mv => mv.id = m) then
    some { db with
      movies := db.movies.map fun mv =>
        if mv.id = m then { mv with avgRating := avg, ratingsCount := cnt } else mv }
  else none

/-- The cached stats payload (`movie:{id}:stats`): movieId, averageRating,
totalRatings and the star distribution computed from the ratings. -/
structure Stats where
  movieId : ℕ
  averageRating : ℚ
  totalRatings : ℕ
  dist1 : ℕ
  dist2 : ℕ
  dist3 : ℕ
  dist4 : ℕ
  dist5 : ℕ
  deriving DecidableEq, Repr

def countStars (db : DB) (m : ℕ) (s : ℤ) : ℕ :=
  ((ratingsFor db m).filter (fun r => r.stars = s)).length

def mkStats (db : DB) (m : ℕ) (avg : ℚ) (total : ℕ) : Stats :=
  ⟨m, avg, total, countStars db m 1, countStars db m 2, countStars db m 3,
    countStars db m 4, countStars db m 5⟩

/-- Everything the consumer touches: the record store, the Redis stats cache and
the search index (movieId ↦ averageRating, ratingCount). TTLs are not modelled. -/
structure ConsumerState where
  db : DB
  cache : List (ℕ × Stats)
  index : List (ℕ × ℚ × ℕ)
  deriving DecidableEq, Repr

def cacheDel (s : ConsumerState) (m : ℕ) : ConsumerState :=
  { s with cache := s.cache.filter (fun p => ¬ p.1 = m) }

def cacheSet (s : ConsumerState) (m : ℕ) (v : Stats) : ConsumerState :=
  { s with cache := (m, v) :: s.cache.filter (fun p => ¬ p.1 = m) }

def indexSet (s : ConsumerState) (m : ℕ) (avg : ℚ) (cnt : ℕ) : ConsumerState :=
  { s with index := (m, avg, cnt) :: s.index.filter (fun p => ¬ p.1 = m) }

/-- Whether the search engine call inside `updateMovieRating` succeeds. -/
structure Env where
  searchOk : Bool
  deriving DecidableEq, Repr

/-- `OpenSearchEngineService.updateMovieRating` (partial update of the search
document): any error from the search engine is caught, logged and *not*
rethrown — "rating update should not fail if search index update fails". -/
def updateMovieRating (env : Env) (s : ConsumerState) (m : ℕ) (avg : ℚ) (cnt : ℕ) :
    ConsumerState :=
  if env.searchOk then indexSet s m avg cnt else s

/-- `RatingStreamConsumer.recalculateMovieStats`: clear the cached stats, read the
exact average and count from the store, then either write the zero aggregate
(no ratings) or cache the stats, write the movie record and push the aggregate to
the search index. A thrown exception is `none` and is rethrown to the caller. -/
def recalculateMovieStats (env : Env) (m : ℕ) (s : ConsumerState) :
    Option ConsumerState :=
  let s1 := cacheDel s m
  let totalRatings := aggCount s1.db m
  let averageRating := round2 (aggAvg s1.db m)
  if totalRatings = 0 then
    match updateMovie s1.db m 0 0 with
    | some db2 => some (updateMovieRating env { s1 with db := db2 } m 0 0)
    | none => none
  else
    let s2 := cacheSet s1 m (mkStats s1.db m averageRating totalRatings)
    match updateMovie s2.db m averageRating totalRatings with
    | some db2 =>
        some (updateMovieRating env { s2 with db := db2 } m averageRating totalRatings)
    | none => none

/-- One entry of a consumer-group read: either a message without a proper `data`
field or a JSON rating event carrying a movieId. -/
inductive StreamMessage where
  | invalid
  | event (movieId : ℕ)
  deriving DecidableEq, Repr

/-- The per-message body of `RatingStreamConsumer.processEvents`: invalid
messages are acknowledged outright; otherwise the movie stats are recalculated
and the message is acknowledged, unless an exception occurred, in which case it
is left unacknowledged for redelivery. Returns the state and the ack flag. -/
def processMessage (env : Env) (msg : StreamMessage) (s : ConsumerState) :
    ConsumerState × Bool :=
  match msg with
  | .invalid => (s, true)
  | .event m =>
      match recalculateMovieStats env m s with
      | some s2 => (s2, true)
      | none => (s, false)

lemma updateMovieRating_db (env : Env) (t : ConsumerState) (m : ℕ) (a : ℚ) (c : ℕ) :
    (updateMovieRating env t m a c).db = t.db := by
  unfold updateMovieRating indexSet
  by_cases h : env.searchOk = true <;> simp [h]

lemma find_map_update (l : List MovieRec) (m : ℕ) (avg : ℚ) (cnt : ℕ)
    (h : l.any (fun mv => mv.id = m) = true) :
    ((l.map fun mv =>
        if mv.id = m then { mv with avgRating := avg, ratingsCount := cnt } else mv).find?
          (fun mv => mv.id = m)).map MovieRec.avgRating = some avg ∧
    ((l.map fun mv =>
        if mv.id = m then { mv with avgRating := avg, ratingsCount := cnt } else mv).find?
          (fun mv => mv.id = m)).map MovieRec.ratingsCount = some cnt := by
  induction l with
  | nil => simp at h
  | cons hd tl ih =>
      by_cases hh : hd.id = m
      · simp [List.find?, hh]
      · have h2 : tl.any (fun mv => mv.id = m) = true := by
          simpa [List.any_cons, hh] using h
        simpa [List.find?, hh] using ih h2

lemma any_map_update (l : List MovieRec) (m : ℕ) (avg : ℚ) (cnt : ℕ) :
    ((l.map fun mv =>
        if mv.id = m then { mv with avgRating := avg, ratingsCount := cnt } else mv).any
          (fun mv => mv.id = m)) = l.any (fun mv => mv.id = m) := by
  induction l with
  | nil => rfl
  | cons hd tl ih =>
      by_cases hh : hd.id = m <;> simp [List.any_cons, hh, ih]

lemma updateMovie_spec (db : DB) (m : ℕ) (avg : ℚ) (cnt : ℕ)
    (h : db.movies.any (fun mv => mv.id = m) = true) :
    ∃ db2, updateMovie db m avg cnt = some db2 ∧
      db2.ratings = db.ratings ∧
      db2.movies.any (fun mv => mv.id = m) = true ∧
      (findMovie db2 m).map MovieRec.avgRating = some avg ∧
      (findMovie db2 m).map MovieRec.ratingsCount = some cnt := by
  refine ⟨{ db with movies := db.movies.map fun mv =>
      if mv.id = m then { mv with avgRating := avg, ratingsCount := cnt } else mv },
    ?_, rfl, ?_, ?_, ?_⟩
  · unfold updateMovie; rw [if_pos h]
  · show (db.movies.map fun mv =>
        if mv.id = m then { mv with avgRating := avg, ratingsCount := cnt } else mv).any
          (fun mv => mv.id = m) = true
    rw [any_map_update]; exact h
  · exact (find_map_update db.movies m avg cnt h).1
  · exact (find_map_update db.movies m avg cnt h).2

lemma round2_zero : round2 0 = 0 := by norm_num [round2]

/-- What one run of `recalculateMovieStats` does to the movie record: it always
writes the two-decimal rounding of the exact store average and the exact store
count, leaves the set of ratings unchanged, and succeeds whenever the movie row
exists. -/
lemma recalc_spec (env : Env) (m : ℕ) (s : ConsumerState)
    (h : s.db.movies.any (fun mv => mv.id = m) = true) :
    ∃ s2, recalculateMovieStats env m s = some s2 ∧
      s2.db.ratings = s.db.ratings ∧
      s2.db.movies.any (fun mv => mv.id = m) = true ∧
      (findMovie s2.db m).map MovieRec.avgRating = some (round2 (aggAvg s.db m)) ∧
      (findMovie s2.db m).map MovieRec.ratingsCount = some (aggCount s.db m) := by
  have hc : (cacheDel s m).db = s.db := rfl
  by_cases hz : aggCount s.db m = 0
  · obtain ⟨db2, hupd, hrat, hany, havg, hcnt⟩ := updateMovie_spec s.db m 0 0 h
    have havgz : aggAvg s.db m = 0 := by
      unfold aggAvg
      rw [if_pos (by exact hz)]
    refine ⟨updateMovieRating env { cacheDel s m with db := db2 } m 0 0, ?_, ?_, ?_, ?_, ?_⟩
    · simp only [recalculateMovieStats]
      rw [hc, if_pos hz, hupd]
    · rw [updateMovieRating_db]; exact hrat
    · rw [updateMovieRating_db]; exact hany
    · rw [updateMovieRating_db, havgz, round2_zero]; exact havg
    · rw [updateMovieRating_db, hz]; exact hcnt
  · obtain ⟨db2, hupd, hrat, hany, havg, hcnt⟩ :=
      updateMovie_spec s.db m (round2 (aggAvg s.db m)) (aggCount s.db m) h
    refine ⟨updateMovieRating env
      { cacheSet (cacheDel s m) m
          (mkStats s.db m (round2 (aggAvg s.db m)) (aggCount s.db m)) with db := db2 }
      m (round2 (aggAvg s.db m)) (aggCount s.db m), ?_, ?_, ?_, ?_, ?_⟩
    · simp only [recalculateMovieStats]
      rw [hc, if_neg hz]
      have hc2 : (cacheSet (cacheDel s m) m
          (mkStats s.db m (round2 (aggAvg s.db m)) (aggCount s.db m))).db = s.db := rfl
      rw [hc2, hupd]
    · rw [updateMovieRating_db]; exact hrat
    · rw [updateMovieRating_db]; exact hany
    · rw [updateMovieRating_db]; exact havg
    · rw [updateMovieRating_db]; exact hcnt

/-- **C2.** For every movie and processed rating event, the recalculation reads
the exact average and count of that movie's ratings from the store: with zero
ratings it writes `avgRating = 0` and `ratingsCount = 0`, otherwise it writes the
two-decimal rounding of the exact average together with the exact count back to
the movie record. -/
theorem recalculateMovieStats_exact_aggregate (env : Env) (m : ℕ) (s : ConsumerState)
    (h : s.db.movies.any (fun mv => mv.id = m) = true) :
    ∃ s2, recalculateMovieStats env m s = some s2 ∧
      (ratingsFor s.db m = [] →
        (findMovie s2.db m).map MovieRec.avgRating = some 0 ∧
        (findMovie s2.db m).map MovieRec.ratingsCount = some 0) ∧
      (ratingsFor s.db m ≠ [] →
        (findMovie s2.db m).map MovieRec.avgRating =
          some (round2 ((((ratingsFor s.db m).map fun r => (r.stars : ℚ)).sum) /
            ((ratingsFor s.db m).length : ℚ))) ∧
        (findMovie s2.db m).map MovieRec.ratingsCount = some (ratingsFor s.db m).length) := by
  obtain ⟨s2, hrun, _, _, havg, hcnt⟩ := recalc_spec env m s h
  refine ⟨s2, hrun, fun hnil => ?_, fun hne => ?_⟩
  · have hz : aggCount s.db m = 0 := by unfold aggCount; rw [hnil]; rfl
    have ha : aggAvg s.db m = 0 := by
      unfold aggAvg; rw [if_pos (by unfold aggCount at hz; exact hz)]
    constructor
    · rw [havg, ha, round2_zero]
    · rw [hcnt, hz]
  · have hz : ¬ (ratingsFor s.db m).length = 0 := by
      simpa [List.length_eq_zero] using hne
    constructor
    · rw [havg]
      unfold aggAvg
      rw [if_neg hz]
    · rw [hcnt]; rfl

/-- Witness for C2: one movie with a single 5-star rating. -/
theorem recalculateMovieStats_exact_aggregate_witness :
    ∃ s2, recalculateMovieStats ⟨true⟩ 1
        ⟨⟨[⟨1, 0, 0⟩], [⟨1, 1, 5, none⟩]⟩, [], []⟩ = some s2 ∧
      (ratingsFor (⟨⟨[⟨1, 0, 0⟩], [⟨1, 1, 5, none⟩]⟩, [], []⟩ : ConsumerState).db 1 = [] →
        (findMovie s2.db 1).map MovieRec.avgRating = some 0 ∧
        (findMovie s2.db 1).map MovieRec.ratingsCount = some 0) ∧
      (ratingsFor (⟨⟨[⟨1, 0, 0⟩], [⟨1, 1, 5, none⟩]⟩, [], []⟩ : ConsumerState).db 1 ≠ [] →
        (findMovie s2.db 1).map MovieRec.avgRating =
          some (round2 ((((ratingsFor (⟨⟨[⟨1, 0, 0⟩], [⟨1, 1, 5, none⟩]⟩, [], []⟩ : ConsumerState).db 1).map
              fun r => (r.stars : ℚ)).sum) /
            ((ratingsFor (⟨⟨[⟨1, 0, 0⟩], [⟨1, 1, 5, none⟩]⟩, [], []⟩ : ConsumerState).db 1).length : ℚ))) ∧
        (findMovie s2.db 1).map MovieRec.ratingsCount =
          some (ratingsFor (⟨⟨[⟨1, 0, 0⟩], [⟨1, 1, 5, none⟩]⟩, [], []⟩ : ConsumerState).db 1).length) :=
  recalculateMovieStats_exact_aggregate ⟨true⟩ 1 _ (by decide)

/-- **C3.** The aggregate recomputation is idempotent: two consecutive runs over
the same unchanged set of underlying ratings write identical `avgRating` and
`ratingsCount` values. -/
theorem recalculateMovieStats_idempotent (env : Env) (m : ℕ) (s : ConsumerState)
    (h : s.db.movies.any (fun mv => mv.id = m) = true) :
    ∃ s1 s2, recalculateMovieStats env m s = some s1 ∧
      recalculateMovieStats env m s1 = some s2 ∧
      (findMovie s2.db m).map MovieRec.avgRating =
        (findMovie s1.db m).map MovieRec.avgRating ∧
      (findMovie s2.db m).map MovieRec.ratingsCount =
        (findMovie s1.db m).map MovieRec.ratingsCount := by
  obtain ⟨s1, h1, hrat1, hany1, havg1, hcnt1⟩ := recalc_spec env m s h
  obtain ⟨s2, h2, _, _, havg2, hcnt2⟩ := recalc_spec env m s1 hany1
  have hrf : ratingsFor s1.db m = ratingsFor s.db m := by
    unfold ratingsFor; rw [hrat1]
  have ha : aggAvg s1.db m = aggAvg s.db m := by
    unfold aggAvg; rw [hrf]
  have hn : aggCount s1.db m = aggCount s.db m := by
    unfold aggCount; rw [hrf]
  exact ⟨s1, s2, h1, h2, by rw [havg2, ha, havg1], by rw [hcnt2, hn, hcnt1]⟩

/-- Witness for C3 on the same one-movie store. -/
theorem recalculateMovieStats_idempotent_witness :
    ∃ s1 s2, recalculateMovieStats ⟨true⟩ 1
        ⟨⟨[⟨1, 0, 0⟩], [⟨1, 1, 5, none⟩]⟩, [], []⟩ = some s1 ∧
      recalculateMovieStats ⟨true⟩ 1 s1 = some s2 ∧
      (findMovie s2.db 1).map MovieRec.avgRating =
        (findMovie s1.db 1).map MovieRec.avgRating ∧
      (findMovie s2.db 1).map MovieRec.ratingsCount =
        (findMovie s1.db 1).map MovieRec.ratingsCount :=
  recalculateMovieStats_idempotent ⟨true⟩ 1 _ (by decide)

/-- Whether the recalculation succeeds does not depend on the search-index
outcome: its only failure point is the movie-record write. -/
lemma recalc_isSome_env (env env2 : Env) (m : ℕ) (s : ConsumerState) :
    (recalculateMovieStats env m s).isSome = (recalculateMovieStats env2 m s).isSome := by
  simp only [recalculateMovieStats]
  by_cases hz : aggCount (cacheDel s m).db m = 0
  · rw [if_pos hz, if_pos hz]
    cases updateMovie (cacheDel s m).db m 0 0 <;> rfl
  · rw [if_neg hz, if_neg hz]
    cases updateMovie (cacheSet (cacheDel s m) m
        (mkStats (cacheDel s m).db m (round2 (aggAvg (cacheDel s m).db m))
          (aggCount (cacheDel s m).db m))).db m
        (round2 (aggAvg (cacheDel s m).db m)) (aggCount (cacheDel s m).db m) <;> rfl

/-- **C5 (amended).** A rating event is acknowledged exactly when the cache
invalidation, store recomputation and movie-record write succeed; a failure of
the search-index push is swallowed inside `updateMovieRating` and can never
change the acknowledgment outcome; a message without a `data` field is
acknowledged without being processed. -/
theorem processMessage_ack_policy (env : Env) (m : ℕ) (s : ConsumerState) :
    (processMessage env (.event m) s).2 = (recalculateMovieStats env m s).isSome ∧
    (processMessage env (.event m) s).2 = (processMessage ⟨true⟩ (.event m) s).2 ∧
    processMessage env .invalid s = (s, true) := by
  refine ⟨?_, ?_, rfl⟩
  · simp only [processMessage]
    cases recalculateMovieStats env m s <;> rfl
  · simp only [processMessage]
    have h := recalc_isSome_env env ⟨true⟩ m s
    cases h1 : recalculateMovieStats env m s <;>
      cases h2 : recalculateMovieStats ⟨true⟩ m s <;>
        rw [h1, h2] at h <;> simp_all

/-- **C5 counterexample.** With the search engine failing, the push of the new
aggregate to the search index does not happen (the index stays empty) and yet the
message is acknowledged — the claim that acknowledgment happens only after the
index push succeeded is false on the code. -/
theorem processMessage_ack_without_index_push :
    (processMessage ⟨false⟩ (.event 1)
        ⟨⟨[⟨1, 0, 0⟩], [⟨1, 1, 5, none⟩]⟩, [], []⟩).2 = true ∧
    (processMessage ⟨false⟩ (.event 1)
        ⟨⟨[⟨1, 0, 0⟩], [⟨1, 1, 5, none⟩]⟩, [], []⟩).1.index = [] := by
  exact ⟨rfl, rfl⟩

/-! ## Rating ingest -/

structure CreateRatingDto where
  movieId : ℕ
  stars : ℤ
  sourceId : Option String
  deriving DecidableEq, Repr

inductive RatingError where
  | badRequest (msg : String)
  deriving DecidableEq, Repr

/-- Fresh autoincrement surrogate for a new `Rating` row. -/
def freshRatingId (db : DB) : ℕ := db.ratings.length

/-- The transactional part of `RatingService.createRating`: insert the rating,
then `updateMovieAggregates` (write the two-decimal rounding of the exact
aggregate average and the exact count to the movie row). -/
def createRatingTx (dto : CreateRatingDto) (db : DB) : DB × Except RatingError RatingRec :=
  let rating : RatingRec := ⟨freshRatingId db, dto.movieId, dto.stars, dto.sourceId⟩
  let db1 : DB := { db with ratings := db.ratings ++ [rating] }
  match updateMovie db1 dto.movieId (round2 (aggAvg db1 dto.movieId)) (aggCount db1 dto.movieId) with
  | some db2 => (db2, .ok rating)
  | none => (db, .error (.badRequest "Movie not found"))

/-- `RatingService.createRating` (src/ratings/service/rating.service.ts): reject
when the movie does not exist; reject with the "already rated" conflict when the
`sourceId` already rated this movie; otherwise run the transaction. The emitted
stream event does not change the store and is omitted here. -/
def createRating (dto : CreateRatingDto) (db : DB) : DB × Except RatingError RatingRec :=
  match findMovie db dto.movieId with
  | none => (db, .error (.badRequest "Movie not found"))
  | some _ =>
      match dto.sourceId with
      | some sid =>
          if db.ratings.any (fun r => r.movieId = dto.movieId ∧ r.sourceId = some sid) then
            (db, .error (.badRequest "You have already rated this movie"))
          else createRatingTx dto db
      | none => createRatingTx dto db

/-- **C4.** If a rating by `sourceId` for the movie already exists, a second
submission with that `sourceId` is rejected with the "already rated" conflict and
neither the stored set of ratings nor the movie's `ratingsCount` changes. -/
theorem createRating_duplicate_rejected (dto : CreateRatingDto) (db : DB) (sid : String)
    (hsid : dto.sourceId = some sid)
    (hmv : (findMovie db dto.movieId).isSome = true)
    (hdup : db.ratings.any (fun r => r.movieId = dto.movieId ∧ r.sourceId = some sid) = true) :
    createRating dto db = (db, .error (.badRequest "You have already rated this movie")) ∧
    (createRating dto db).1.ratings = db.ratings ∧
    (findMovie (createRating dto db).1 dto.movieId).map MovieRec.ratingsCount =
      (findMovie db dto.movieId).map MovieRec.ratingsCount := by
  obtain ⟨mv, hmv2⟩ := Option.isSome_iff_exists.mp hmv
  have heq : createRating dto db =
      (db, .error (.badRequest "You have already rated this movie")) := by
    unfold createRating
    simp only [hmv2, hsid]
    rw [if_pos hdup]
  exact ⟨heq, by rw [heq], by rw [heq]⟩

/-- Witness for C4: source `abc` already rated movie 1. -/
theorem createRating_duplicate_rejected_witness :
    createRating ⟨1, 4, some "abc"⟩ ⟨[⟨1, 5, 1⟩], [⟨0, 1, 5, some "abc"⟩]⟩ =
      (⟨[⟨1, 5, 1⟩], [⟨0, 1, 5, some "abc"⟩]⟩,
        .error (.badRequest "You have already rated this movie")) ∧
    (createRating ⟨1, 4, some "abc"⟩ ⟨[⟨1, 5, 1⟩], [⟨0, 1, 5, some "abc"⟩]⟩).1.ratings =
      (⟨[⟨1, 5, 1⟩], [⟨0, 1, 5, some "abc"⟩]⟩ : DB).ratings ∧
    (findMovie (createRating ⟨1, 4, some "abc"⟩
        ⟨[⟨1, 5, 1⟩], [⟨0, 1, 5, some "abc"⟩]⟩).1 1).map MovieRec.ratingsCount =
      (findMovie (⟨[⟨1, 5, 1⟩], [⟨0, 1, 5, some "abc"⟩]⟩ : DB) 1).map MovieRec.ratingsCount :=
  createRating_duplicate_rejected ⟨1, 4, some "abc"⟩ _ "abc" rfl (by decide) (by decide)

/-- State touched by the anonymous-rating path: the store, the rating stats cache
and the emitted stream events (movieId, stars). -/
structure AnonState where
  db : DB
  cache : List (ℕ × Stats)
  stream : List (ℕ × ℤ)
  deriving DecidableEq, Repr

/-- `RatingService.createAnonymousRating` (anonymous-rating service): reject
stars outside `[1,5]` with a validation message, reject a missing movie with
"Movie not found", otherwise insert the rating (sourceId defaults to
"anonymous"), invalidate the movie's cache entry and emit a CREATE rating event.
Aggregates are left to the stream consumer. -/
def createAnonymousRating (dto : CreateRatingDto) (s : AnonState) :
    AnonState × Except RatingError RatingRec :=
  if dto.stars < 1 ∨ 5 < dto.stars then
    (s, .error (.badRequest "Rating must be between 1 and 5 stars"))
  else
    match findMovie s.db dto.movieId with
    | none => (s, .error (.badRequest "Movie not found"))
    | some _ =>
        let rating : RatingRec :=
          ⟨freshRatingId s.db, dto.movieId, dto.stars, some (dto.sourceId.getD "anonymous")⟩
        ({ db := { s.db with ratings := s.db.ratings ++ [rating] },
           cache := s.cache.filter (fun p => ¬ p.1 = dto.movieId),
           stream := s.stream ++ [(dto.movieId, dto.stars)] },
          .ok rating)

/-- `MoviesController.rateMovie`: reject falsy or out-of-range `stars`
(`!stars || stars < 1 || stars > 5`) with "Stars must be between 1 and 5", then
call `createAnonymousRating`; a service error is rethrown as a
`BadRequestException` with the same message. -/
def rateMovie (id : ℕ) (stars : ℤ) (s : AnonState) :
    AnonState × Except RatingError RatingRec :=
  if stars = 0 ∨ stars < 1 ∨ 5 < stars then
    (s, .error (.badRequest "Stars must be between 1 and 5"))
  else createAnonymousRating ⟨id, stars, none⟩ s

/-- **C7.** A rating submission with `1 ≤ R ≤ 5` for an existing movie succeeds;
any `R` outside `[1,5]` — in particular `R = 0` and `R = 6` — is rejected with a
validation error; a submission for a missing movie id is rejected with the
"Movie not found" rejection. -/
theorem rateMovie_validation (id : ℕ) (stars : ℤ) (s : AnonState) :
    (1 ≤ stars → stars ≤ 5 → (findMovie s.db id).isSome = true →
      (rateMovie id stars s).2 =
        .ok ⟨freshRatingId s.db, id, stars, some "anonymous"⟩) ∧
    (stars < 1 ∨ 5 < stars →
      rateMovie id stars s = (s, .error (.badRequest "Stars must be between 1 and 5"))) ∧
    (1 ≤ stars → stars ≤ 5 → findMovie s.db id = none →
      rateMovie id stars s = (s, .error (.badRequest "Movie not found"))) := by
  refine ⟨?_, ?_, ?_⟩
  · intro h1 h5 hmv
    obtain ⟨mv, hmv2⟩ := Option.isSome_iff_exists.mp hmv
    have hnz : ¬ (stars = 0 ∨ stars < 1 ∨ 5 < stars) := by omega
    have hno : ¬ (stars < 1 ∨ 5 < stars) := by omega
    unfold rateMovie
    rw [if_neg hnz]
    unfold createAnonymousRating
    rw [if_neg hno]
    simp [hmv2]
  · intro hout
    have hz : stars = 0 ∨ stars < 1 ∨ 5 < stars := by omega
    unfold rateMovie
    rw [if_pos hz]
  · intro h1 h5 hmv
    have hnz : ¬ (stars = 0 ∨ stars < 1 ∨ 5 < stars) := by omega
    have hno : ¬ (stars < 1 ∨ 5 < stars) := by omega
    unfold rateMovie
    rw [if_neg hnz]
    unfold createAnonymousRating
    rw [if_neg hno]
    simp only [hmv]

/-- Witness for C7: success at `R = 5` on an existing movie, rejection at
`R = 0`, `R = 6`, and at a missing movie id. -/
theorem rateMovie_validation_witness :
    (rateMovie 1 5 ⟨⟨[⟨1, 0, 0⟩], []⟩, [], []⟩).2 =
      .ok ⟨0, 1, 5, some "anonymous"⟩ ∧
    rateMovie 1 0 ⟨⟨[⟨1, 0, 0⟩], []⟩, [], []⟩ =
      (⟨⟨[⟨1, 0, 0⟩], []⟩, [], []⟩, .error (.badRequest "Stars must be between 1 and 5")) ∧
    rateMovie 1 6 ⟨⟨[⟨1, 0, 0⟩], []⟩, [], []⟩ =
      (⟨⟨[⟨1, 0, 0⟩], []⟩, [], []⟩, .error (.badRequest "Stars must be between 1 and 5")) ∧
    rateMovie 2 5 ⟨⟨[⟨1, 0, 0⟩], []⟩, [], []⟩ =
      (⟨⟨[⟨1, 0, 0⟩], []⟩, [], []⟩, .error (.badRequest "Movie not found")) := by
  refine ⟨?_, ?_, ?_, ?_⟩
  · exact (rateMovie_validation 1 5 _).1 (by norm_num) (by norm_num) (by decide)
  · exact (rateMovie_validation 1 0 _).2.1 (by norm_num)
  · exact (rateMovie_validation 1 6 _).2.1 (by norm_num)
  · exact (rateMovie_validation 2 5 _).2.2 (by norm_num) (by norm_num) (by decide)

/-! ## Query compiler and HTTP search handlers -/

inductive SortField where
  | averageRating
  | ratingCount
  | score
  deriving DecidableEq, Repr

inductive SortOrder where
  | asc
  | desc
  deriving DecidableEq, Repr

/-- A clause of the compiled OpenSearch boolean query; release-date bounds of the
form `${year}-01-01` are carried as the year. -/
inductive QueryClause where
  | termType (t : MovieType)
  | rangeAvgGte (b : ℚ)
  | rangeAvgLte (b : ℚ)
  | rangeReleaseGte (year : ℤ)
  | rangeReleaseLt (year : ℤ)
  | matchAll
  | matchText (field : String) (text : String) (boost : ℚ)
  deriving DecidableEq, Repr

structure RankedQuery where
  must : List QueryClause
  should : List QueryClause
  minimumShouldMatch : Option ℕ
  sort : List (SortField × SortOrder)
  deriving DecidableEq, Repr

/-- JS truthiness for an optional number (`if (criteria.afterYear)`): `0` is falsy. -/
def truthyNat : Option ℕ → Option ℕ
  | some 0 => none
  | o => o

/-- `OpenSearchEngineService.buildOpenSearchQuery`: conjunctive filters (type,
rating range via `!== undefined`, truthy year and age bounds with the age cutoffs
computed from the current calendar year, here a parameter), a disjunctive boosted
text clause plus cast-name clauses with `minimum_should_match: 1` when present,
`match_all` when there is no filter, and the fixed sort
`averageRating desc, ratingCount desc, _score desc`. -/
def buildOpenSearchQuery (criteria : SearchCriteria) (type? : Option MovieType)
    (currentYear : ℤ) : RankedQuery :=
  let mustClauses :=
    (match type? with | some t => [QueryClause.termType t] | none => []) ++
    (match criteria.minRating with | some b => [QueryClause.rangeAvgGte b] | none => []) ++
    (match criteria.maxRating with | some b => [QueryClause.rangeAvgLte b] | none => []) ++
    (match truthyNat criteria.afterYear with
      | some y => [QueryClause.rangeReleaseGte (y : ℤ)] | none => []) ++
    (match truthyNat criteria.beforeYear with
      | some y => [QueryClause.rangeReleaseLt ((y : ℤ) + 1)] | none => []) ++
    (match truthyNat criteria.olderThanYears with
      | some n => [QueryClause.rangeReleaseLt (currentYear - (n : ℤ))] | none => []) ++
    (match truthyNat criteria.newerThanYears with
      | some n => [QueryClause.rangeReleaseGte (currentYear - (n : ℤ))] | none => [])
  let shouldClauses :=
    (match criteria.textQuery with
      | some t =>
          if t.isEmpty then []
          else [QueryClause.matchText "title" t 3, QueryClause.matchText "description" t 2,
                QueryClause.matchText "cast" t (3/2)]
      | none => []) ++
    criteria.castNames.map (fun n => QueryClause.matchText "cast" n 2)
  { must := if mustClauses.isEmpty then [QueryClause.matchAll] else mustClauses
    should := shouldClauses
    minimumShouldMatch := if shouldClauses.isEmpty then none else some 1
    sort := [(SortField.averageRating, SortOrder.desc), (SortField.ratingCount, SortOrder.desc),
             (SortField.score, SortOrder.desc)] }

/-- `OpenSearchEngineService.buildTopRatedQuery`: filter-only query sorted by
rating then rating count (no relevance key at all). -/
def buildTopRatedQuery (type? : Option MovieType) : RankedQuery :=
  let mustClauses := match type? with | some t => [QueryClause.termType t] | none => []
  { must := if mustClauses.isEmpty then [QueryClause.matchAll] else mustClauses
    should := []
    minimumShouldMatch := none
    sort := [(SortField.averageRating, SortOrder.desc), (SortField.ratingCount, SortOrder.desc)] }

/-- The sort spec built by `SearchService.searchMovies`
(src/search/search.service.ts): `averageRating desc, ratingCount desc, _score desc`. -/
def searchServiceSort : List (SortField × SortOrder) :=
  [(SortField.averageRating, SortOrder.desc), (SortField.ratingCount, SortOrder.desc),
   (SortField.score, SortOrder.desc)]

/-- JS `String.prototype.trim`. -/
def jsTrim (s : String) : String := String.mk (trimWs s.toList)

/-- Body selection of `OpenSearchEngineService.searchMovies`: a present query of
trimmed length ≥ 2 is parsed and compiled; anything else falls back to the
top-rated query. The function is total — it never throws. -/
def chooseSearchBody (query : Option String) (type? : Option MovieType)
    (currentYear : ℤ) : RankedQuery :=
  match query with
  | some q =>
      if 2 ≤ (jsTrim q).length then
        buildOpenSearchQuery (parseQuery (jsTrim q)) type? currentYear
      else buildTopRatedQuery type?
  | none => buildTopRatedQuery type?

/-- JS `parseInt(s, 10)`: `none` is `NaN`. -/
def parseIntJS (s : String) : Option ℤ :=
  let t := s.toList.dropWhile isWs
  match t with
  | '-' :: rest => (parseNatTok rest).map (fun p => -(p.1 : ℤ))
  | '+' :: rest => (parseNatTok rest).map (fun p => (p.1 : ℤ))
  | _ => (parseNatTok t).map (fun p => (p.1 : ℤ))

inductive SearchHttpOutcome where
  | badRequest (msg : String)
  | forwarded (query : String) (arg2 arg3 : Option ℤ)
  deriving DecidableEq, Repr

/-- The registered `MoviesController.searchMovies`
(src/movies/movies.controller.ts): rejects an absent/blank query with 400 and
otherwise forwards `(query, parseInt(page), parseInt(limit))` positionally to
`OpenSearchService.searchMovies` — with no page/limit validation at all (the
second positional argument of the service is its type filter). -/
def searchMoviesEndpoint (query page limit : String) : SearchHttpOutcome :=
  if (jsTrim query).isEmpty then .badRequest "Query parameter is required"
  else .forwarded query (parseIntJS page) (parseIntJS limit)

inductive SearchHttpOutcomeV2 where
  | badRequest (msg : String)
  | callService (query typeArg : Option String) (page limit : Option ℤ)
  deriving DecidableEq, Repr

/-- `pageNum < 1` in JS, where `pageNum` may be `NaN` (NaN comparisons are false). -/
def ltNaN (x : Option ℤ) (c : ℤ) : Bool :=
  match x with
  | some v => v < c
  | none => false

def gtNaN (x : Option ℤ) (c : ℤ) : Bool :=
  match x with
  | some v => c < v
  | none => false

/-- The consolidated duplicate `MoviesController.searchMovies` variant found in
the repository (the controller with sync endpoints): rejects `pageNum < 1`,
`limitNum < 1 || limitNum > 50` and an unrecognized type value with 400, then
calls `searchMovies(query, type, pageNum, limitNum)` in the correct order. -/
def searchMoviesEndpointV2 (query typeArg : Option String) (page limit : String) :
    SearchHttpOutcomeV2 :=
  let pageNum := parseIntJS page
  let limitNum := parseIntJS limit
  if ltNaN pageNum 1 then .badRequest "Page must be greater than 0"
  else if ltNaN limitNum 1 ∨ gtNaN limitNum 50 then
    .badRequest "Limit must be between 1 and 50"
  else
    match typeArg with
    | some t =>
        if t = "MOVIE" ∨ t = "TV_SHOW" then .callService query typeArg pageNum limitNum
        else .badRequest "Invalid type. Must be MOVIE or TV_SHOW"
    | none => .callService query typeArg pageNum limitNum

/-- `PaginationQueryDto` (class-validator decorators): `offset ≥ 0`,
`1 ≤ limit ≤ 100`. -/
def paginationDtoAccepts (offset limit : ℤ) : Bool :=
  0 ≤ offset ∧ 1 ≤ limit ∧ limit ≤ 100

/-- **C6 counterexample.** A concrete compiled query sorts by average rating
first and puts the relevance score last — not score first as claimed. -/
theorem buildOpenSearchQuery_sort_not_score_first :
    (buildOpenSearchQuery {} none 2025).sort =
      [(SortField.averageRating, SortOrder.desc), (SortField.ratingCount, SortOrder.desc),
       (SortField.score, SortOrder.desc)] ∧
    (buildOpenSearchQuery {} none 2025).sort ≠
      [(SortField.score, SortOrder.desc), (SortField.averageRating, SortOrder.desc),
       (SortField.ratingCount, SortOrder.desc)] := by
  exact ⟨rfl, by decide⟩

/-- **C6 (amended).** Every compiled criteria query sorts by average rating
(descending), then rating count (descending), then relevance score (descending,
last); the top-rated query sorts by average rating then rating count with no
relevance key; the duplicate `SearchService` builds the same
rating-first/score-last sort. -/
theorem compiled_sort_order (criteria : SearchCriteria) (type? : Option MovieType)
    (currentYear : ℤ) :
    (buildOpenSearchQuery criteria type? currentYear).sort =
      [(SortField.averageRating, SortOrder.desc), (SortField.ratingCount, SortOrder.desc),
       (SortField.score, SortOrder.desc)] ∧
    (buildTopRatedQuery type?).sort =
      [(SortField.averageRating, SortOrder.desc), (SortField.ratingCount, SortOrder.desc)] ∧
    searchServiceSort =
      [(SortField.averageRating, SortOrder.desc), (SortField.ratingCount, SortOrder.desc),
       (SortField.score, SortOrder.desc)] :=
  ⟨rfl, rfl, rfl⟩

/-- **C8 counterexample.** On the registered search endpoint `limit=100` is not
rejected: the request is forwarded to the search service; and the cited
`PaginationQueryDto` accepts `limit = 100` (its cap is 100, not 50). -/
theorem searchEndpoint_limit100_not_rejected :
    searchMoviesEndpoint "batman" "1" "100" = .forwarded "batman" (some 1) (some 100) ∧
    paginationDtoAccepts 0 100 = true := by
  exact ⟨rfl, rfl⟩

/-- **C8 (amended).** Only the consolidated duplicate controller variant enforces
the bounds: it rejects `page < 1` and `limit ∉ [1,50]` (so `limit=100`) with a
400 validation error before calling the search service, and accepts `limit=50`;
the registered controller in `movies.controller.ts` performs no page/limit
validation and forwards any non-blank query. -/
theorem searchEndpointV2_bounds (q t : Option String) (page limit : String) (p l : ℤ)
    (hp : parseIntJS page = some p) (hl : parseIntJS limit = some l) :
    (p < 1 → searchMoviesEndpointV2 q t page limit =
      .badRequest "Page must be greater than 0") ∧
    (1 ≤ p → (l < 1 ∨ 50 < l) → searchMoviesEndpointV2 q t page limit =
      .badRequest "Limit must be between 1 and 50") ∧
    (1 ≤ p → 1 ≤ l → l ≤ 50 → t = none →
      searchMoviesEndpointV2 q t page limit = .callService q t (some p) (some l)) ∧
    (∀ query page2 limit2 : String, ¬ (jsTrim query).isEmpty = true →
      searchMoviesEndpoint query page2 limit2 =
        .forwarded query (parseIntJS page2) (parseIntJS limit2)) := by
  refine ⟨?_, ?_, ?_, ?_⟩
  · intro hlt
    unfold searchMoviesEndpointV2
    rw [if_pos (by simp [ltNaN, hp, hlt])]
  · intro hge hout
    unfold searchMoviesEndpointV2
    rw [if_neg (by simp [ltNaN, hp]; omega), if_pos ?_]
    simp [ltNaN, gtNaN, hl]
    omega
  · intro hge h1 h50 ht
    unfold searchMoviesEndpointV2
    rw [if_neg (by simp [ltNaN, hp]; omega), if_neg (by simp [ltNaN, gtNaN, hl]; omega), ht]
    rw [hp, hl]
  · intro query page2 limit2 hne
    unfold searchMoviesEndpoint
    rw [if_neg (by simpa using hne)]

/-- Witness for the amended C8: `limit=100` is rejected and `limit=50` accepted
by the validating controller variant; the registered endpoint forwards
`limit=100`. -/
theorem searchEndpointV2_bounds_witness :
    searchMoviesEndpointV2 (some "batman") none "1" "100" =
      .badRequest "Limit must be between 1 and 50" ∧
    searchMoviesEndpointV2 (some "batman") none "1" "50" =
      .callService (some "batman") none (some 1) (some 50) ∧
    searchMoviesEndpoint "batman" "1" "100" =
      .forwarded "batman" (parseIntJS "1") (parseIntJS "100") := by
  refine ⟨?_, ?_, ?_⟩
  · exact (searchEndpointV2_bounds (some "batman") none "1" "100" 1 100 rfl rfl).2.1
      (by norm_num) (by norm_num)
  · exact (searchEndpointV2_bounds (some "batman") none "1" "50" 1 50 rfl rfl).2.2.1
      (by norm_num) (by norm_num) (by norm_num) rfl
  · exact (searchEndpointV2_bounds (some "batman") none "1" "50" 1 50 rfl rfl).2.2.2
      "batman" "1" "100" (by decide)

/-- **C9 counterexample.** The registered search endpoint answers an empty query
with a 400 error ("Query parameter is required"), not with the default top-rated
result set. -/
theorem searchEndpoint_empty_query_rejected :
    searchMoviesEndpoint "" "1" "10" = .badRequest "Query parameter is required" := by
  exact rfl

/-- **C9 (amended).** At the search-engine service an absent query, or one whose
trimmed text is shorter than two characters (no criteria can be recognized),
compiles — without ever throwing — to the default top-rated body: filter-only
(`match_all` when no type filter) and sorted by rating; the registered HTTP
controller, however, rejects an empty query parameter with 400. -/
theorem chooseSearchBody_fallback_top_rated (q : Option String) (t : Option MovieType)
    (currentYear : ℤ)
    (h : q = none ∨ ∃ s, q = some s ∧ (jsTrim s).length < 2) :
    chooseSearchBody q t currentYear = buildTopRatedQuery t ∧
    (buildTopRatedQuery none).must = [QueryClause.matchAll] ∧
    (buildTopRatedQuery t).sort =
      [(SortField.averageRating, SortOrder.desc), (SortField.ratingCount, SortOrder.desc)] := by
  refine ⟨?_, rfl, rfl⟩
  rcases h with h | ⟨s, hq, hlen⟩
  · rw [h]; rfl
  · rw [hq]
    show (if 2 ≤ (jsTrim s).length then
        buildOpenSearchQuery (parseQuery (jsTrim s)) t currentYear
      else buildTopRatedQuery t) = buildTopRatedQuery t
    rw [if_neg (by omega)]

/-- Witness for the amended C9 at the one-character query `x`. -/
theorem chooseSearchBody_fallback_top_rated_witness :
    chooseSearchBody (some "x") none 2025 = buildTopRatedQuery none ∧
    (buildTopRatedQuery none).must = [QueryClause.matchAll] ∧
    (buildTopRatedQuery none).sort =
      [(SortField.averageRating, SortOrder.desc), (SortField.ratingCount, SortOrder.desc)] :=
  chooseSearchBody_fallback_top_rated (some "x") none 2025
    (Or.inr ⟨"x", rfl, by decide⟩)
